import Mathlib

/-!
Verification of the tool-orchestration core of the `fab` build system.

The Python sources under `src/source/fab` are embedded shallowly: pure
fragments become Lean functions, stateful methods become explicit
state-passing functions, and Python exceptions become `Except` results.
Base classes that are not part of the sources at hand
(`fab/tools/tool.py`, `fab/tools/compiler.py`, `fab/util.py`) are
modelled from the design document; each such definition carries a doc
comment starting with `Modelled from the spec:`.
-/

namespace FabVerify

/-- Decidable equality for `Except`, so that concrete runs of the embedded
operations can be checked by `decide`. -/
instance {ε α : Type} [DecidableEq ε] [DecidableEq α] : DecidableEq (Except ε α) := fun x y =>
  match x, y with
  | .ok a, .ok b =>
      if h : a = b then .isTrue (h ▸ rfl)
      else .isFalse (fun c => h (Except.ok.inj c))
  | .error e, .error f =>
      if h : e = f then .isTrue (h ▸ rfl)
      else .isFalse (fun c => h (Except.error.inj c))
  | .ok _, .error _ => .isFalse (fun c => Except.noConfusion c)
  | .error _, .ok _ => .isFalse (fun c => Except.noConfusion c)

/-! ## Python string helpers -/

/-- Helper for `pySplit`: scan the characters, accumulating the current
word (in reverse) and emitting it whenever a whitespace run starts. -/
def pyWordsAux : List Char → List Char → List String
  | [], acc => if acc.isEmpty then [] else [String.mk acc.reverse]
  | c :: rest, acc =>
      if c.isWhitespace then
        if acc.isEmpty then pyWordsAux rest []
        else String.mk acc.reverse :: pyWordsAux rest []
      else pyWordsAux rest (c :: acc)

/-- Python `str.split()` with no argument: split on runs of whitespace and
drop empty fragments. -/
def pySplit (s : String) : List String := pyWordsAux s.data []

/-- Python `sep.join(xs)`. -/
def pyJoin (sep : String) : List String → String
  | [] => ""
  | [x] => x
  | x :: y :: xs => x ++ sep ++ pyJoin sep (y :: xs)

/-- Substring relation on strings, used to state that an aggregate error
message contains each individual message. -/
def strSub (m s : String) : Prop := ∃ p q : String, s = p ++ m ++ q

/-- Python string comparison `a <= b`: lexicographic on code points. -/
def pyStrLeData : List Char → List Char → Bool
  | [], _ => true
  | _ :: _, [] => false
  | a :: as, b :: bs =>
      if a.toNat < b.toNat then true
      else if b.toNat < a.toNat then false
      else pyStrLeData as bs

/-- Python string comparison `a <= b` on `String`. -/
def pyStrLe (a b : String) : Bool := pyStrLeData a.data b.data

/-- Python `sorted` on strings: a stable sort in lexicographic string order
(here realised as insertion sort, which is stable; on strings equal keys are
identical, so any sort in the same order yields the same list). -/
def insertSorted (x : String) : List String → List String
  | [] => [x]
  | y :: ys => if pyStrLe x y then x :: y :: ys else y :: insertSorted x ys

/-- Python `sorted(map(str, input_files))` as used in `Linker.link`. -/
def pySorted (l : List String) : List String := l.foldr insertSorted []

/-! ## Linker (src/source/fab/tools/linker.py)

A `Linker` is a `CompilerWrapper` around a compiler.  The state below
collects exactly the attributes that `Linker.link`, `Linker.get_lib_flags`
and the `CompilerWrapper.flags` property read:

* `compilerFlags` — the wrapped compiler's flag list (`self._compiler.flags`,
  which is what the `flags` property of `CompilerWrapper`
  (compiler_wrapper.py lines 85-88) returns for the wrapper);
* `ownFlags` — the wrapper instance's own `self._flags` list, which
  `Linker.__init__` extends with the whitespace-split `LDFLAGS` tokens;
* `openmpFlag` — `self._compiler.openmp_flag`;
* `outputFlag` — `self._output_flag` (default `-o`);
* `preLibFlags`, `postLibFlags`, `libFlags` — the linker's three library
  flag regions (`_pre_lib_flags`, `_post_lib_flags`, `_lib_flags`, the last
  one an insertion-ordered dict). -/
structure LinkerState where
  execName : String
  compilerFlags : List String
  ownFlags : List String
  openmpFlag : String
  outputFlag : String
  preLibFlags : List String
  postLibFlags : List String
  libFlags : List (String × List String)
deriving DecidableEq

/-- Lookup in the insertion-ordered `_lib_flags` dict. -/
def lookupLib (m : List (String × List String)) (lib : String) : Option (List String) :=
  match m with
  | [] => none
  | (k, v) :: rest => if k = lib then some v else lookupLib rest lib

/-- The `RuntimeError` message raised by `Linker.get_lib_flags`. -/
def unknownLibMsg (lib : String) : String :=
  "Unknown library name: " ++ "'" ++ lib ++ "'"

/-- Embeds `Linker.get_lib_flags` (linker.py lines 46-58): return the
registered flag list for `lib`, or raise `RuntimeError` if the name is not
registered. -/
def get_lib_flags (s : LinkerState) (lib : String) : Except String (List String) :=
  match lookupLib s.libFlags lib with
  | some fl => .ok fl
  | none => .error (unknownLibMsg lib)

/-- The `for lib in (libs or []): params.extend(self.get_lib_flags(lib))`
loop of `Linker.link`: concatenates the registered flags of each requested
library in caller order, raising on the first unregistered name. -/
def libParams (s : LinkerState) : List String → Except String (List String)
  | [] => .ok []
  | lib :: rest => do
      let fl ← get_lib_flags s lib
      let r ← libParams s rest
      .ok (fl ++ r)

/-- Embeds `Linker.link` (linker.py lines 101-129) composed with the
invocation primitive.  `Tool.run` is in `fab/tools/tool.py`, which is not
among the sources at hand.  Modelled from the spec: `run` "invokes the
executable with the tool's accumulated flags prepended to `args` (order:
tool flags, then caller-supplied args)" (spec 4.1); the tool's flags are
read through the `flags` property, which for a `CompilerWrapper` (and hence
a `Linker`) returns `self._compiler.flags` (compiler_wrapper.py lines
85-88).  On success the result is the full command line handed to the
external process; an `.error` result means the call raised before any
process was spawned. -/
def link (s : LinkerState) (inputFiles : List String) (outputFile : String)
    (openmp : Bool) (libs : List String) : Except String (List String) := do
  let params0 : List String := if openmp then [s.openmpFlag] else []
  let params1 := params0 ++ pySorted inputFiles
  let params2 := params1 ++ (if s.preLibFlags ≠ [] then s.preLibFlags else [])
  let libFl ← libParams s libs
  let params3 := params2 ++ libFl
  let params4 := params3 ++ (if s.postLibFlags ≠ [] then s.postLibFlags else [])
  let params5 := params4 ++ [s.outputFlag, outputFile]
  .ok ([s.execName] ++ s.compilerFlags ++ params5)

/-- The composition claimed by the spec (4.3 and 8): compiler flags, then
the linker's own directly-added flags, then the OpenMP flag, sorted inputs,
pre-lib flags, per-library flags in caller order, post-lib flags, output
flag and path.  This definition follows the spec's words and is compared
against `link`, which follows the source. -/
def linkCommandClaimed (s : LinkerState) (inputFiles : List String)
    (outputFile : String) (openmp : Bool) (libs : List String) :
    Except String (List String) := do
  let libFl ← libParams s libs
  .ok ([s.execName] ++ s.compilerFlags ++ s.ownFlags ++
       (if openmp then [s.openmpFlag] else []) ++
       pySorted inputFiles ++ s.preLibFlags ++ libFl ++ s.postLibFlags ++
       [s.outputFlag, outputFile])

/-- Embeds line 38 of `Linker.__init__`:
`self._flags.extend(os.getenv("LDFLAGS", "").split())` — the linker's own
flag list after construction is whatever the superclass constructors left
there, extended once by the whitespace-split `LDFLAGS` value. -/
def linkerInitOwnFlags (base : List String) (ldflags : String) : List String :=
  base ++ pySplit ldflags

/-- The per-library flags actually consumed by a successful link, as an
explicit function (used to state the amended C1). -/
def requestedLibFlags (s : LinkerState) (libs : List String) : List String :=
  match libs with
  | [] => []
  | lib :: rest => (lookupLib s.libFlags lib).getD [] ++ requestedLibFlags s rest

/-! ## CompilerWrapper.compile_file (src/source/fab/tools/compiler_wrapper.py)

`compile_file` (lines 123-155) saves the wrapped compiler's executable
name, substitutes the wrapper's, delegates to the wrapped compiler's
`compile_file`, and then restores the saved name.  There is no
`try`/`finally` around the delegation.  The wrapped compiler's own
`compile_file` lives in `fab/tools/compiler.py`, which is not among the
sources at hand; Modelled from the spec: the delegated compilation either
completes or fails with an error (spec 4.2), so its outcome is passed in
as the `delegate` argument.  The result is the pair of the call's outcome
and the wrapped compiler's executable name after the call. -/
def compile_file (wrapperName wrapperExec : String) (isFortran : Bool)
    (syntaxOnly : Option Bool) (delegate : Except String Unit)
    (compilerExec : String) : Except String Unit × String :=
  let origCompilerName := compilerExec
  let substituted := wrapperExec
  if isFortran then
    match delegate with
    | .ok _ => (.ok (), origCompilerName)
    | .error e => (.error e, substituted)
  else
    if syntaxOnly ≠ none then
      (.error ("Syntax-only cannot be used with compiler " ++
               "'" ++ wrapperName ++ "'."), substituted)
    else
      match delegate with
      | .ok _ => (.ok (), origCompilerName)
      | .error e => (.error e, substituted)

/-! ## CompilerWrapper.is_available (src/source/fab/tools/compiler_wrapper.py)

Lines 46-78.  `Tool.is_available`, `Tool.check_available` and
`Tool.get_version` live in `fab/tools/tool.py` / `fab/tools/compiler.py`,
which are not among the sources at hand.  Modelled from the spec:
`is_available` "returns whether the executable can be located and responds
successfully to a version probe; result is cached after first computation",
and `get_version` returns the parsed version tuple of the probe (spec 4.1).
The state below carries the wrapper's cache (`self._is_available`), the
already-determined outcome of the wrapped compiler's probe, the outcome of
the wrapper executable's own probe, and the two version tuples the probes
report. -/
structure WrapperAvailState where
  cached : Option Bool
  compilerAvailable : Bool
  wrapperProbeOk : Bool
  wrapperVersion : List Nat
  compilerVersion : List Nat
deriving DecidableEq

/-- Embeds `CompilerWrapper.is_available`: return the cache if set; report
unavailable if the wrapped compiler's probe fails, or the wrapper's own
probe fails (both cases caching `False`/the probe result); if both probes
succeed but report different versions, warn and return `False` (the cache
keeps the value the superclass probe stored); otherwise return `True`. -/
def wrapperIsAvailable (s : WrapperAvailState) : Bool × WrapperAvailState :=
  match s.cached with
  | some b => (b, s)
  | none =>
      if !s.compilerAvailable then
        (false, { s with cached := some false })
      else if !s.wrapperProbeOk then
        (false, { s with cached := some false })
      else if s.wrapperVersion ≠ s.compilerVersion then
        (false, { s with cached := some true })
      else
        (true, { s with cached := some true })

/-! ## ToolRepository.add_tool (src/source/fab/tools/tool_repository.py)

Lines 101-117 append the tool to its category list and, for a compiler,
construct the companion linker as
`Linker(name=f"linker-{tool.name}", compiler=tool)`.
`Linker.__init__` (linker.py line 29) declares the parameters
`(self, compiler, output_flag)` — there is no `name` parameter — and its
own `super().__init__(...)` call passes a `category=` keyword that
`CompilerWrapper.__init__` (compiler_wrapper.py lines 32-34, parameters
`(self, name, exec_name, compiler, mpi)`) does not declare either.  In
Python, passing a keyword argument that is not a parameter of the callee
raises `TypeError` before the body runs.  The definitions below record the
parameter names (from the `def` lines) and the keyword arguments (from the
call sites), and the Python call-binding rule that decides whether the
calls are accepted. -/

/-- Parameter names of `Linker.__init__` (linker.py line 29), `self`
excluded. -/
def linkerInitParamNames : List String := ["compiler", "output_flag"]

/-- Keyword arguments of the companion-linker construction in
`ToolRepository.add_tool` (tool_repository.py line 116). -/
def addToolLinkerKwargs : List String := ["name", "compiler"]

/-- Parameter names of `CompilerWrapper.__init__` (compiler_wrapper.py
lines 32-34), `self` excluded. -/
def compilerWrapperInitParamNames : List String :=
  ["name", "exec_name", "compiler", "mpi"]

/-- Keyword arguments of the `super().__init__(...)` call inside
`Linker.__init__` (linker.py lines 31-36). -/
def linkerSuperInitKwargs : List String :=
  ["name", "exec_name", "compiler", "category", "mpi"]

/-- Python keyword binding: a call whose keyword set is not contained in
the callee's parameter names raises `TypeError`. -/
def pyKwargsAccepted (params kwargs : List String) : Bool :=
  kwargs.all (fun k => params.contains k)

/-! ## PreProcessor.run (src/source/fab/steps/preprocess.py)

Lines 54-78.  `run_mp` (from the missing `fab/steps/mp_exe.py`) executes
`process_artefact` over all items and returns the list of per-item
outcomes; Modelled from the spec: "executes the function across a
configurable-size worker pool, collecting successes and exceptions
separately" (spec 4.6) — the outcome list is therefore taken as the input
of the aggregation step embedded here.  `by_type` (from the missing
`fab/util.py`) filters a list by element type; here the outcomes are a sum
of result paths and exception messages and `by_type` becomes the two
filters below. -/
inductive PPResult where
  | path (p : String)
  | exc (msg : String)
deriving DecidableEq

/-- `by_type(results, Exception)`: the messages of the failed items, in
order. -/
def excMsgs : List PPResult → List String
  | [] => []
  | .path _ :: rest => excMsgs rest
  | .exc m :: rest => m :: excMsgs rest

/-- `by_type(results, Path)`: the result paths of the successful items, in
order. -/
def pathResults : List PPResult → List String
  | [] => []
  | .path p :: rest => p :: pathResults rest
  | .exc _ :: rest => pathResults rest

/-- The artefact store, restricted to what `PreProcessor.run` touches: a
mapping from collection name to a list of paths
(`artefact_store[self.output_collection] = ...`). -/
def Store : Type := List (String × List String)

/-- `artefact_store[k] = v`: replace the entry if present, else append. -/
def storeSet (st : Store) (k : String) (v : List String) : Store :=
  match st with
  | [] => [(k, v)]
  | (k', v') :: rest =>
      if k' = k then (k, v) :: rest else (k', v') :: storeSet rest k v

/-- The aggregate error message built by `PreProcessor.run` lines 70-75:
the per-item messages joined by blank lines, then the failure count and a
fixed trailer. -/
def aggregateMsg (msgs : List String) : String :=
  pyJoin "\n\n" msgs ++ "\n\n" ++ toString msgs.length ++
    " Error(s) found during preprocessing: "

/-- Embeds `PreProcessor.run` (preprocess.py lines 54-78) from the point
where the per-item outcomes are known: if any item failed, raise a single
`Exception` with the aggregate message and leave the store untouched;
otherwise publish the result paths under the output collection name.  The
result pairs the outcome with the store after the call. -/
def preprocessRun (results : List PPResult) (outputCollection : String)
    (st : Store) : Except String Unit × Store :=
  let exceptions := excMsgs results
  if exceptions ≠ [] then
    (.error (aggregateMsg exceptions), st)
  else
    (.ok (), storeSet st outputCollection (pathResults results))

/-! ## PreProcessor.process_artefact (src/source/fab/steps/preprocess.py)

Lines 80-116.  `input_to_output_fpath` and `.with_suffix` (from the
missing `fab/util.py` / `pathlib`) compute the destination path of an
item; Modelled from the spec: the "computed destination for that item"
(spec 4.6) is supplied as the function `outputOf`.  `run_command` (missing
`fab/util.py`) spawns the preprocessor; its outcome, when it is invoked at
all, is the `runOutcome` argument.  The result pairs the item outcome with
a flag recording whether `run_command` was invoked. -/
structure PPItemConfig where
  reuseArtefacts : Bool
  existingPaths : List String
deriving DecidableEq

/-- Embeds `process_artefact`: compute the destination; if reuse is
enabled and the destination exists, return it without running the tool;
otherwise run the tool and return the destination, wrapping a tool failure
in the per-item error message. -/
def process_artefact (cfg : PPItemConfig) (outputOf : String → String)
    (runOutcome : Except String Unit) (fpath : String) :
    Except String String × Bool :=
  let outputFpath := outputOf fpath
  if cfg.reuseArtefacts && cfg.existingPaths.contains outputFpath then
    (.ok outputFpath, false)
  else
    match runOutcome with
    | .ok _ => (.ok outputFpath, true)
    | .error e =>
        (.error ("error preprocessing " ++ fpath ++ ": " ++ e), true)

/-! ## ToolRepository.set_default_compiler_suite
(src/source/fab/tools/tool_repository.py)

Lines 141-158.  For each of the Fortran-compiler, C-compiler and Linker
categories the list is replaced by
`sorted(self[category], key=lambda x: x.suite != suite)` — Python's
`sorted` is stable and the key is boolean, so the result is exactly the
matching tools followed by the non-matching tools, each in their original
order — and then a `RuntimeError` is raised if the list is non-empty and
its first element's suite is not the requested one. -/
structure SuiteTool where
  name : String
  suite : String
deriving DecidableEq

/-- The three category lists `set_default_compiler_suite` touches. -/
structure SuiteRepo where
  fortranCompilers : List SuiteTool
  cCompilers : List SuiteTool
  linkers : List SuiteTool
deriving DecidableEq

/-- `sorted(l, key=lambda x: x.suite != suite)`: stable boolean-key sort,
i.e. the tools of the suite, in order, followed by the rest, in order. -/
def sortBySuite (suite : String) (l : List SuiteTool) : List SuiteTool :=
  l.filter (fun t => t.suite == suite) ++ l.filter (fun t => !(t.suite == suite))

/-- One iteration of the category loop of `set_default_compiler_suite`:
sort the list, then raise if it is non-empty and its head is not of the
requested suite. -/
def setSuiteCat (catName suite : String) (l : List SuiteTool) :
    Except String (List SuiteTool) :=
  let l' := sortBySuite suite l
  match l' with
  | [] => .ok []
  | t :: rest =>
      if t.suite = suite then .ok (t :: rest)
      else .error ("Cannot find " ++ "'" ++ catName ++ "'" ++
                   " in the suite " ++ "'" ++ suite ++ "'.")

/-- Embeds `ToolRepository.set_default_compiler_suite` (tool_repository.py
lines 141-158): process the Fortran-compiler, C-compiler and Linker
categories in that order, stopping at the first failure. -/
def set_default_compiler_suite (r : SuiteRepo) (suite : String) :
    Except String SuiteRepo := do
  let fc ← setSuiteCat "FORTRAN_COMPILER" suite r.fortranCompilers
  let cc ← setSuiteCat "C_COMPILER" suite r.cCompilers
  let ld ← setSuiteCat "LINKER" suite r.linkers
  .ok { fortranCompilers := fc, cCompilers := cc, linkers := ld }

/-! ## Psyclone.process (src/source/fab/tools/psyclone.py)

Lines 92-151 (the validation prefix; the rest of the method builds the
parameter list and finally spawns the tool with `self.run`).
`Tool.is_available` is in the missing `fab/tools/tool.py`; Modelled from
the spec: it reports whether the executable probes successfully (spec 4.1)
and is passed in as the `available` flag.  Python truthiness decides the
branches: `api` is an optional string (`None` and `""` are falsy),
`psy_file` and `transformed_file` are optional paths (falsy iff absent),
`alg_file` may be a path or a string (here modelled as an optional string,
falsy if absent or empty). -/
def pyTruthy : Option String → Bool
  | none => false
  | some s => !(s == "")

/-- Python `str.lower()` (on the ASCII range relevant here: the compared
literal is `"nemo"`). -/
def pyLower (s : String) : String := String.mk (s.data.map Char.toLower)

/-- The legacy-api normalisation of `Psyclone.process` (psyclone.py lines
126-128): `if api and api.lower() == "nemo": api = ""`. -/
def normalizeApi (api : Option String) : Option String :=
  if pyTruthy api && (pyLower (api.getD "") == "nemo") then some "" else api

/-- Embeds the validation prefix of `Psyclone.process` (psyclone.py lines
123-151).  An `.ok` result means validation passed and the method goes on
to build the PSyclone command line and spawn the process; an `.error`
result is a `RuntimeError` raised before any process is spawned. -/
def psycloneProcessValidate (available : Bool) (api : Option String)
    (psyFile : Option String) (algFile : Option String)
    (transformedFile : Option String) : Except String Unit :=
  if !available then .error "PSyclone is not available."
  else
    let api2 := normalizeApi api
    if pyTruthy api2 then
      if psyFile.isNone then
        .error ("PSyclone called with api " ++ "'" ++ api2.getD "" ++ "'" ++
                ", but no psy_file is specified.")
      else if !(pyTruthy algFile) then
        .error ("PSyclone called with api " ++ "'" ++ api2.getD "" ++ "'" ++
                ", but no alg_file is specified.")
      else if transformedFile.isSome then
        .error ("PSyclone called with api " ++ "'" ++ api2.getD "" ++ "'" ++
                " and transformed_file.")
      else .ok ()
    else
      if psyFile.isSome then
        .error "PSyclone called without api, but psy_file is specified."
      else if pyTruthy algFile then
        .error "PSyclone called without api, but alg_file is specified."
      else if transformedFile.isNone then
        .error "PSyclone called without api, but transformed_file is not specified."
      else .ok ()

/-! ## Concrete states used by the closed theorems -/

/-- A concrete linker state: wrapped compiler flags `-x`, own flags `-y`
(as the spec's worked example in section 8 uses), two registered
libraries, one pre- and one post-library flag. -/
def sampleLinker : LinkerState :=
  { execName := "wrapped.exe", compilerFlags := ["-x"], ownFlags := ["-y"],
    openmpFlag := "-fopenmp", outputFlag := "-o",
    preLibFlags := ["-p"], postLibFlags := ["-q"],
    libFlags := [("L1", ["-l1"]), ("L2", ["-l2"])] }

/-- A repository with two suites in each of the three affected
categories. -/
def sampleSuiteRepo : SuiteRepo :=
  { fortranCompilers := [{ name := "gfortran", suite := "gnu" },
                         { name := "ifort", suite := "intel" }],
    cCompilers := [{ name := "icc", suite := "intel" },
                   { name := "gcc", suite := "gnu" }],
    linkers := [{ name := "linker-gfortran", suite := "gnu" },
                { name := "linker-ifort", suite := "intel" }] }

/-- `sampleSuiteRepo` after `set_default_compiler_suite(.. "intel")`: the
intel tools moved to the front of each list, order otherwise kept. -/
def sampleSuiteRepoIntelFirst : SuiteRepo :=
  { fortranCompilers := [{ name := "ifort", suite := "intel" },
                         { name := "gfortran", suite := "gnu" }],
    cCompilers := [{ name := "icc", suite := "intel" },
                   { name := "gcc", suite := "gnu" }],
    linkers := [{ name := "linker-ifort", suite := "intel" },
                { name := "linker-gfortran", suite := "gnu" }] }

/-- A repository whose C-compiler and Linker categories are empty and
whose only Fortran compiler is of suite gnu. -/
def gnuOnlyFortranRepo : SuiteRepo :=
  { fortranCompilers := [{ name := "gfortran", suite := "gnu" }],
    cCompilers := [], linkers := [] }

/-! ## Helper lemmas -/

theorem ite_nil_or_self (l : List String) : (if l ≠ [] then l else []) = l := by
  by_cases h : l = [] <;> simp [h]

theorem ite_nil_self (l : List String) : (if l = [] then [] else l) = l := by
  by_cases h : l = [] <;> simp [h]

theorem libParams_ok (s : LinkerState) (libs : List String)
    (h : ∀ l ∈ libs, (lookupLib s.libFlags l).isSome) :
    libParams s libs = .ok (requestedLibFlags s libs) := by
  induction libs with
  | nil => rfl
  | cons lib rest ih =>
      have h1 := h lib (by simp)
      obtain ⟨fl, hfl⟩ := Option.isSome_iff_exists.mp h1
      have h2 : ∀ l ∈ rest, (lookupLib s.libFlags l).isSome :=
        fun l hl => h l (by simp [hl])
      simp [libParams, get_lib_flags, hfl, ih h2, requestedLibFlags,
            Bind.bind, Except.bind]

theorem libParams_eq_of_libFlags (s1 s2 : LinkerState)
    (h : s1.libFlags = s2.libFlags) (libs : List String) :
    libParams s1 libs = libParams s2 libs := by
  induction libs with
  | nil => rfl
  | cons a r ih => simp [libParams, get_lib_flags, h, ih]

theorem libParams_first_error (s : LinkerState) (libs : List String)
    (h : ∃ lib ∈ libs, lookupLib s.libFlags lib = none) :
    ∃ lib ∈ libs, lookupLib s.libFlags lib = none ∧
      libParams s libs = .error (unknownLibMsg lib) := by
  induction libs with
  | nil => simp at h
  | cons lib rest ih =>
      cases hl : lookupLib s.libFlags lib with
      | none =>
          exact ⟨lib, by simp, hl,
                 by simp [libParams, get_lib_flags, hl, Bind.bind, Except.bind]⟩
      | some fl =>
          have hrest : ∃ l ∈ rest, lookupLib s.libFlags l = none := by
            rcases h with ⟨l, hmem, hnone⟩
            rcases List.mem_cons.mp hmem with rfl | hmem2
            · rw [hl] at hnone; cases hnone
            · exact ⟨l, hmem2, hnone⟩
          rcases ih hrest with ⟨l, hm, hn, he⟩
          exact ⟨l, List.mem_cons_of_mem _ hm, hn,
                 by simp [libParams, get_lib_flags, hl, he, Bind.bind,
                          Except.bind]⟩

theorem strSub_refl (m : String) : strSub m m := ⟨"", "", by simp⟩

theorem strSub_app_left (m a b : String) (h : strSub m a) :
    strSub m (a ++ b) := by
  rcases h with ⟨p, q, hpq⟩
  exact ⟨p, q ++ b, by rw [hpq]; simp [String.append_assoc]⟩

theorem strSub_app_right (m a b : String) (h : strSub m b) :
    strSub m (a ++ b) := by
  rcases h with ⟨p, q, hpq⟩
  exact ⟨a ++ p, q, by rw [hpq]; simp [String.append_assoc]⟩

theorem mem_pyJoin_strSub (sep : String) (xs : List String) (m : String)
    (h : m ∈ xs) : strSub m (pyJoin sep xs) := by
  induction xs with
  | nil => simp at h
  | cons x rest ih =>
      cases rest with
      | nil =>
          simp at h
          subst h
          exact strSub_refl m
      | cons y ys =>
          rcases List.mem_cons.mp h with rfl | h2
          · exact ⟨"", sep ++ pyJoin sep (y :: ys),
                   by simp [pyJoin, String.append_assoc]⟩
          · have := ih h2
            show strSub m (x ++ sep ++ pyJoin sep (y :: ys))
            exact strSub_app_right m (x ++ sep) _ this

theorem mem_excMsgs (results : List PPResult) (m : String)
    (h : PPResult.exc m ∈ results) : m ∈ excMsgs results := by
  induction results with
  | nil => simp at h
  | cons r rest ih =>
      cases r with
      | path p =>
          rcases List.mem_cons.mp h with h1 | h2
          · cases h1
          · simp [excMsgs, ih h2]
      | exc m2 =>
          rcases List.mem_cons.mp h with h1 | h2
          · simp [excMsgs, (PPResult.exc.inj h1).symm]
          · simp [excMsgs, ih h2]

theorem excMsgs_mem (results : List PPResult) (m : String)
    (h : m ∈ excMsgs results) : PPResult.exc m ∈ results := by
  induction results with
  | nil => simp [excMsgs] at h
  | cons r rest ih =>
      cases r with
      | path p =>
          simp only [excMsgs] at h
          exact List.mem_cons_of_mem _ (ih h)
      | exc m2 =>
          simp only [excMsgs] at h
          rcases List.mem_cons.mp h with rfl | h2
          · exact List.mem_cons_self _ _
          · exact List.mem_cons_of_mem _ (ih h2)

theorem excMsgs_ne_nil (results : List PPResult)
    (h : ∃ m, PPResult.exc m ∈ results) : excMsgs results ≠ [] := by
  rcases h with ⟨m, hm⟩
  have := mem_excMsgs results m hm
  intro hnil
  rw [hnil] at this
  simp at this

theorem strSub_aggregate (msgs : List String) (m : String) (h : m ∈ msgs) :
    strSub m (aggregateMsg msgs) := by
  unfold aggregateMsg
  exact strSub_app_left m _ _ (strSub_app_left m _ _
    (strSub_app_left m _ _ (mem_pyJoin_strSub _ msgs m h)))

theorem strSub_aggregate_count (msgs : List String) :
    strSub (toString msgs.length ++ " Error(s) found during preprocessing: ")
      (aggregateMsg msgs) := by
  unfold aggregateMsg
  exact ⟨pyJoin "\n\n" msgs ++ "\n\n", "", by simp [String.append_assoc]⟩

theorem sortBySuite_idem (s : String) (l : List SuiteTool) :
    sortBySuite s (sortBySuite s l) = sortBySuite s l := by
  unfold sortBySuite
  simp [List.filter_append, List.filter_filter]

theorem setSuiteCat_ok_eq (cat s : String) (l l' : List SuiteTool)
    (h : setSuiteCat cat s l = .ok l') : l' = sortBySuite s l := by
  unfold setSuiteCat at h
  cases hl : sortBySuite s l with
  | nil => rw [hl] at h; simp_all
  | cons t rest =>
      rw [hl] at h
      by_cases ht : t.suite = s
      · simp [ht] at h; simp_all
      · simp [ht] at h

theorem setSuiteCat_ok_head (cat s : String) (l : List SuiteTool)
    (t : SuiteTool) (rest : List SuiteTool)
    (h : setSuiteCat cat s l = .ok (t :: rest)) : t.suite = s := by
  unfold setSuiteCat at h
  cases hl : sortBySuite s l with
  | nil => rw [hl] at h; simp at h
  | cons t2 rest2 =>
      rw [hl] at h
      by_cases ht : t2.suite = s
      · simp [ht] at h
        rw [← h.1]
        exact ht
      · simp [ht] at h

theorem setSuiteCat_idem (cat s : String) (l l' : List SuiteTool)
    (h : setSuiteCat cat s l = .ok l') : setSuiteCat cat s l' = .ok l' := by
  have heq := setSuiteCat_ok_eq cat s l l' h
  have hsort : sortBySuite s l' = l' := by rw [heq]; exact sortBySuite_idem s l
  unfold setSuiteCat
  rw [hsort]
  cases hl : l' with
  | nil => rfl
  | cons t rest =>
      have ht : t.suite = s := setSuiteCat_ok_head cat s l t rest (hl ▸ h)
      simp [ht]

theorem setSuiteCat_error_of (cat s : String) (l : List SuiteTool)
    (hne : l ≠ []) (hall : ∀ t ∈ l, t.suite ≠ s) :
    ∃ e, setSuiteCat cat s l = .error e := by
  obtain ⟨t, rest, hl⟩ : ∃ t rest, l = t :: rest := by
    cases l with
    | nil => exact absurd rfl hne
    | cons a b => exact ⟨a, b, rfl⟩
  subst hl
  have hf1 : (t :: rest).filter (fun x => x.suite == s) = [] := by
    rw [List.filter_eq_nil_iff]
    intro x hx
    simp [hall x hx]
  have hf2 : (t :: rest).filter (fun x => !(x.suite == s)) = t :: rest := by
    rw [List.filter_eq_self]
    intro x hx
    simp [hall x hx]
  have hsort : sortBySuite s (t :: rest) = t :: rest := by
    unfold sortBySuite
    rw [hf1, hf2, List.nil_append]
  refine ⟨"Cannot find " ++ "'" ++ cat ++ "'" ++ " in the suite " ++ "'" ++
          s ++ "'.", ?_⟩
  simp [setSuiteCat, hsort, hall t (List.mem_cons_self t rest)]

theorem set_default_ok_parts (r r' : SuiteRepo) (s : String)
    (h : set_default_compiler_suite r s = .ok r') :
    setSuiteCat "FORTRAN_COMPILER" s r.fortranCompilers =
      .ok r'.fortranCompilers ∧
    setSuiteCat "C_COMPILER" s r.cCompilers = .ok r'.cCompilers ∧
    setSuiteCat "LINKER" s r.linkers = .ok r'.linkers := by
  unfold set_default_compiler_suite at h
  cases h1 : setSuiteCat "FORTRAN_COMPILER" s r.fortranCompilers with
  | error e => rw [h1] at h; simp [Bind.bind, Except.bind] at h
  | ok fc =>
      rw [h1] at h
      cases h2 : setSuiteCat "C_COMPILER" s r.cCompilers with
      | error e => rw [h2] at h; simp [Bind.bind, Except.bind] at h
      | ok cc =>
          rw [h2] at h
          cases h3 : setSuiteCat "LINKER" s r.linkers with
          | error e => rw [h3] at h; simp [Bind.bind, Except.bind] at h
          | ok ld =>
              rw [h3] at h
              simp [Bind.bind, Except.bind] at h
              have hr : r' = { fortranCompilers := fc, cCompilers := cc,
                               linkers := ld } := by simp_all
              subst hr
              exact ⟨rfl, rfl, rfl⟩

theorem except_unit_cases (x : Except String Unit) :
    x = .ok () ∨ ∃ e, x = .error e := by
  cases x with
  | ok u => cases u; exact Or.inl rfl
  | error e => exact Or.inr ⟨e, rfl⟩

theorem validate_ok_api (available : Bool) (api psy alg tr : Option String)
    (h : pyTruthy (normalizeApi api) = true)
    (hok : psycloneProcessValidate available api psy alg tr = .ok ()) :
    psy ≠ none ∧ pyTruthy alg = true ∧ tr = none := by
  unfold psycloneProcessValidate at hok
  by_cases ha : available
  · simp only [ha, Bool.not_true, Bool.false_eq_true, if_false, h,
               if_true] at hok
    split_ifs at hok with h1 h2 h3
    · exact ⟨by simpa using h1, by simpa using h2, by simpa using h3⟩
  · simp [ha] at hok

theorem validate_ok_noapi (available : Bool) (api psy alg tr : Option String)
    (h : pyTruthy (normalizeApi api) = false)
    (hok : psycloneProcessValidate available api psy alg tr = .ok ()) :
    psy = none ∧ pyTruthy alg = false ∧ tr ≠ none := by
  unfold psycloneProcessValidate at hok
  by_cases ha : available
  · simp only [ha, Bool.not_true, Bool.false_eq_true, if_false, h] at hok
    split_ifs at hok with h1 h2 h3
    · refine ⟨by simpa using h1, by simpa using h2, by simpa using h3⟩
  · simp [ha] at hok

/-! ## Claim theorems -/

/-- Claim C1 (amended).  For every call to `Linker.link` whose requested
library names are all registered, the composed command line is exactly:
the executable, the wrapped compiler's flags (read through the delegating
`flags` property), the OpenMP flag if requested, the input files sorted
lexicographically, the pre-library flags, each requested library's flags
in caller order, the post-library flags, and the output flag followed by
the output path.  The linker's own directly-added flag list does not
appear: the `flags` property of `CompilerWrapper` returns only the
wrapped compiler's flags, so the wrapper instance's own `_flags` are
shadowed. -/
theorem c1_link_flag_composition (s : LinkerState) (inputFiles : List String)
    (outputFile : String) (openmp : Bool) (libs : List String)
    (h : ∀ l ∈ libs, (lookupLib s.libFlags l).isSome) :
    link s inputFiles outputFile openmp libs =
      .ok ([s.execName] ++ s.compilerFlags ++
           (if openmp then [s.openmpFlag] else []) ++
           pySorted inputFiles ++ s.preLibFlags ++
           requestedLibFlags s libs ++ s.postLibFlags ++
           [s.outputFlag, outputFile]) := by
  simp [link, libParams_ok s libs h, Bind.bind, Except.bind,
        ite_nil_or_self, ite_nil_self, List.append_assoc]

/-- Claim C1, witness: the amended composition at the spec's own worked
example (compiler flags `-x`, inputs `b.o a.o`, libs `L2 L1`, openmp). -/
theorem c1_witness :
    (∀ l ∈ ["L2", "L1"], (lookupLib sampleLinker.libFlags l).isSome) ∧
    link sampleLinker ["b.o", "a.o"] "a.out" true ["L2", "L1"] =
      .ok ([sampleLinker.execName] ++ sampleLinker.compilerFlags ++
           (if true then [sampleLinker.openmpFlag] else []) ++
           pySorted ["b.o", "a.o"] ++ sampleLinker.preLibFlags ++
           requestedLibFlags sampleLinker ["L2", "L1"] ++
           sampleLinker.postLibFlags ++ [sampleLinker.outputFlag, "a.out"]) :=
  ⟨by decide,
   c1_link_flag_composition sampleLinker ["b.o", "a.o"] "a.out" true
     ["L2", "L1"] (by decide)⟩

/-- Claim C1, counterexample to the claim as stated: on the spec's worked
example the code's command line omits the linker's own flag `-y`, while
the claimed composition (definition `linkCommandClaimed`, which follows
the spec's words) places `-y` after the compiler flags; the two disagree. -/
theorem c1_counterexample :
    link sampleLinker ["b.o", "a.o"] "a.out" true ["L2", "L1"] =
      .ok ["wrapped.exe", "-x", "-fopenmp", "a.o", "b.o", "-p", "-l2", "-l1",
           "-q", "-o", "a.out"] ∧
    linkCommandClaimed sampleLinker ["b.o", "a.o"] "a.out" true ["L2", "L1"] =
      .ok ["wrapped.exe", "-x", "-y", "-fopenmp", "a.o", "b.o", "-p", "-l2",
           "-l1", "-q", "-o", "a.out"] ∧
    link sampleLinker ["b.o", "a.o"] "a.out" true ["L2", "L1"] ≠
      linkCommandClaimed sampleLinker ["b.o", "a.o"] "a.out" true
        ["L2", "L1"] := by
  decide

/-- Claim C2 (amended).  `CompilerWrapper.compile_file` restores the
wrapped compiler's executable name on every normal (non-exception) exit
path; when the call raises — the delegated compilation fails, or
syntax-only is requested of a non-Fortran wrapped compiler — the
substituted name remains (there is no try/finally around the
delegation). -/
theorem c2_exec_name_restored (wrapperName wrapperExec : String)
    (isFortran : Bool) (syntaxOnly : Option Bool)
    (delegate : Except String Unit) (compilerExec : String)
    (h : (compile_file wrapperName wrapperExec isFortran syntaxOnly delegate
            compilerExec).1 = .ok ()) :
    (compile_file wrapperName wrapperExec isFortran syntaxOnly delegate
       compilerExec).2 = compilerExec := by
  cases isFortran <;> cases delegate <;> cases syntaxOnly <;>
    simp_all [compile_file]

/-- Claim C2, witness: a successful non-Fortran delegation restores the
wrapped compiler's executable name. -/
theorem c2_witness :
    (compile_file "mpicc-gcc" "mpicc" false none (.ok ()) "gcc").1 =
      .ok () ∧
    (compile_file "mpicc-gcc" "mpicc" false none (.ok ()) "gcc").2 = "gcc" :=
  ⟨by decide,
   c2_exec_name_restored "mpicc-gcc" "mpicc" false none (.ok ()) "gcc"
     (by decide)⟩

/-- Claim C2, counterexample to the claim as stated: on the
syntax-only-with-C-compiler exception path and on the
delegated-compilation-failure path the wrapped compiler's executable name
after the call is the wrapper's, not the original. -/
theorem c2_counterexample :
    (compile_file "mpicc-gcc" "mpicc" false (some true) (.ok ()) "gcc").2 =
      "mpicc" ∧
    (compile_file "mpif90-gfortran" "mpif90" true none
       (.error "compile failed") "gfortran").2 = "mpif90" ∧
    "mpicc" ≠ "gcc" ∧ "mpif90" ≠ "gfortran" := by
  decide

/-- Claim C3 (code bug).  The companion-linker construction in
`ToolRepository.add_tool` passes the keyword argument `name`, which
`Linker.__init__` does not declare, and `Linker.__init__` itself passes
the keyword argument `category`, which `CompilerWrapper.__init__` does
not declare; both calls are rejected by Python's keyword binding
(`TypeError`), so no companion linker is ever appended. -/
theorem c3_companion_linker_typeerror :
    pyKwargsAccepted linkerInitParamNames addToolLinkerKwargs = false ∧
    pyKwargsAccepted compilerWrapperInitParamNames linkerSuperInitKwargs =
      false := by
  decide

/-- Claim C4.  For a wrapper whose availability is not yet cached, whose
wrapped compiler probes available and whose own executable probes
available, but whose two probes report different versions,
`CompilerWrapper.is_available` returns false. -/
theorem c4_version_mismatch_unavailable (s : WrapperAvailState)
    (h1 : s.cached = none) (h2 : s.compilerAvailable = true)
    (h3 : s.wrapperProbeOk = true)
    (h4 : s.wrapperVersion ≠ s.compilerVersion) :
    (wrapperIsAvailable s).1 = false := by
  simp [wrapperIsAvailable, h1, h2, h3, h4]

/-- Claim C4, witness: both probes succeed, versions 14.1.0 versus
13.2.0, and the wrapper reports unavailable. -/
theorem c4_witness :
    ({ cached := none, compilerAvailable := true, wrapperProbeOk := true,
       wrapperVersion := [14, 1, 0], compilerVersion := [13, 2, 0] } :
       WrapperAvailState).cached = none ∧
    (wrapperIsAvailable
      { cached := none, compilerAvailable := true, wrapperProbeOk := true,
        wrapperVersion := [14, 1, 0], compilerVersion := [13, 2, 0] }).1 =
      false :=
  ⟨rfl,
   c4_version_mismatch_unavailable
     { cached := none, compilerAvailable := true, wrapperProbeOk := true,
       wrapperVersion := [14, 1, 0], compilerVersion := [13, 2, 0] }
     rfl rfl rfl (by decide)⟩

/-- Claim C5.  If any item of a preprocessing run failed, the run raises
a single aggregate error whose message contains every per-item failure
message and the failure count, and the artefact store is left unchanged;
if no item failed, the result paths are published under the output
collection name. -/
theorem c5_preprocess_aggregate (results : List PPResult)
    (outputCollection : String) (st : Store) :
    ((∃ m, PPResult.exc m ∈ results) →
       preprocessRun results outputCollection st =
         (.error (aggregateMsg (excMsgs results)), st) ∧
       (∀ m, PPResult.exc m ∈ results →
          strSub m (aggregateMsg (excMsgs results))) ∧
       strSub (toString (excMsgs results).length ++
               " Error(s) found during preprocessing: ")
         (aggregateMsg (excMsgs results))) ∧
    ((¬ ∃ m, PPResult.exc m ∈ results) →
       preprocessRun results outputCollection st =
         (.ok (), storeSet st outputCollection (pathResults results))) := by
  constructor
  · intro h
    refine ⟨by simp [preprocessRun, excMsgs_ne_nil results h], ?_, ?_⟩
    · exact fun m hm => strSub_aggregate _ m (mem_excMsgs results m hm)
    · exact strSub_aggregate_count _
  · intro h
    have hnil : excMsgs results = [] := by
      by_contra hne
      rcases List.exists_mem_of_ne_nil _ hne with ⟨m, hm⟩
      exact h ⟨m, excMsgs_mem results m hm⟩
    simp [preprocessRun, hnil]

/-- Claim C5, witness: a three-item run whose second item failed raises
the aggregate error containing the item's message and leaves the store
unchanged; a one-item run with no failure publishes the path list. -/
theorem c5_witness :
    (∃ m, PPResult.exc m ∈
      [PPResult.path "out/a.f90", PPResult.exc "error preprocessing b.F90",
       PPResult.path "out/c.f90"]) ∧
    preprocessRun
      [PPResult.path "out/a.f90", PPResult.exc "error preprocessing b.F90",
       PPResult.path "out/c.f90"] "preprocessed_fortran" [] =
      (.error (aggregateMsg (excMsgs
        [PPResult.path "out/a.f90", PPResult.exc "error preprocessing b.F90",
         PPResult.path "out/c.f90"])), []) ∧
    strSub "error preprocessing b.F90" (aggregateMsg (excMsgs
      [PPResult.path "out/a.f90", PPResult.exc "error preprocessing b.F90",
       PPResult.path "out/c.f90"])) ∧
    (¬ ∃ m, PPResult.exc m ∈ [PPResult.path "out/a.f90"]) ∧
    preprocessRun [PPResult.path "out/a.f90"] "preprocessed_fortran" [] =
      (.ok (), storeSet [] "preprocessed_fortran"
                 (pathResults [PPResult.path "out/a.f90"])) := by
  have hex : ∃ m, PPResult.exc m ∈
      [PPResult.path "out/a.f90", PPResult.exc "error preprocessing b.F90",
       PPResult.path "out/c.f90"] := ⟨"error preprocessing b.F90", by decide⟩
  have hnone : ¬ ∃ m, PPResult.exc m ∈ [PPResult.path "out/a.f90"] := by
    rintro ⟨m, hm⟩
    simp at hm
  have h1 := (c5_preprocess_aggregate
    [PPResult.path "out/a.f90", PPResult.exc "error preprocessing b.F90",
     PPResult.path "out/c.f90"] "preprocessed_fortran" []).1 hex
  have h2 := (c5_preprocess_aggregate [PPResult.path "out/a.f90"]
    "preprocessed_fortran" []).2 hnone
  exact ⟨hex, h1.1, h1.2.1 "error preprocessing b.F90" (by decide), hnone, h2⟩

/-- Claim C6 (amended).  `Linker.__init__` extends the linker's own flag
list with the whitespace-split LDFLAGS tokens exactly once, but the flag
list used when the linker composes a link command is the wrapped
compiler's (through the delegating `flags` property), so the composed
command line is independent of the linker's own flag list and the LDFLAGS
tokens appear zero times in it rather than once. -/
theorem c6_ldflags_once :
    (∀ (base : List String) (env : String),
       linkerInitOwnFlags base env = base ++ pySplit env) ∧
    (∀ (s : LinkerState) (f : List String) (inputFiles : List String)
       (outputFile : String) (openmp : Bool) (libs : List String),
       link { s with ownFlags := f } inputFiles outputFile openmp libs =
         link s inputFiles outputFile openmp libs) := by
  refine ⟨fun _ _ => rfl,
          fun s f inputFiles outputFile openmp libs => ?_⟩
  simp only [link]
  rw [libParams_eq_of_libFlags { s with ownFlags := f } s rfl libs]

/-- Claim C6, counterexample to the claim as stated: a linker constructed
with LDFLAGS `-lm` holds the token once in its own flag list, yet the
composed link command contains the token zero times, not once. -/
theorem c6_counterexample :
    linkerInitOwnFlags [] "-lm" = ["-lm"] ∧
    link { execName := "mock.exe", compilerFlags := [],
           ownFlags := linkerInitOwnFlags [] "-lm",
           openmpFlag := "-fopenmp", outputFlag := "-o",
           preLibFlags := [], postLibFlags := [], libFlags := [] }
      ["a.o"] "a.out" false [] =
      .ok ["mock.exe", "a.o", "-o", "a.out"] ∧
    List.count "-lm" ["mock.exe", "a.o", "-o", "a.out"] = 0 := by
  decide

/-- Claim C7.  If some requested library name is not registered,
`Linker.link` fails with the unknown-library error of the first such name
(in caller order) and composes no command at all — no process is spawned
— and `Linker.get_lib_flags` on that name fails with the same error. -/
theorem c7_unknown_library (s : LinkerState) (inputFiles : List String)
    (outputFile : String) (openmp : Bool) (libs : List String)
    (h : ∃ lib ∈ libs, lookupLib s.libFlags lib = none) :
    ∃ lib ∈ libs, lookupLib s.libFlags lib = none ∧
      link s inputFiles outputFile openmp libs =
        .error (unknownLibMsg lib) ∧
      get_lib_flags s lib = .error (unknownLibMsg lib) := by
  rcases libParams_first_error s libs h with ⟨lib, hm, hn, he⟩
  exact ⟨lib, hm, hn, by simp [link, he, Bind.bind, Except.bind],
         by simp [get_lib_flags, hn]⟩

/-- Claim C7, witness: requesting the unregistered library `nope` aborts
the link with the unknown-library error. -/
theorem c7_witness :
    (∃ lib ∈ ["nope"], lookupLib sampleLinker.libFlags lib = none) ∧
    (∃ lib ∈ ["nope"], lookupLib sampleLinker.libFlags lib = none ∧
      link sampleLinker ["a.o"] "a.out" false ["nope"] =
        .error (unknownLibMsg lib) ∧
      get_lib_flags sampleLinker lib = .error (unknownLibMsg lib)) :=
  ⟨by decide,
   c7_unknown_library sampleLinker ["a.o"] "a.out" false ["nope"]
     (by decide)⟩

/-- Claim C8 (amended).  On success, `set_default_compiler_suite` leaves
each of the three category lists equal to its stable partition (suite
tools first, relative order preserved, a permutation of the original),
a second call with the same suite returns the same repository, and the
head of every non-empty resulting category list has the requested suite;
and the call raises if any NON-EMPTY affected category contains no tool
of the requested suite (an empty category, however, is not reported). -/
theorem c8_suite_reorder :
    (∀ (r r' : SuiteRepo) (s : String),
       set_default_compiler_suite r s = .ok r' →
       (r'.fortranCompilers = sortBySuite s r.fortranCompilers ∧
        r'.cCompilers = sortBySuite s r.cCompilers ∧
        r'.linkers = sortBySuite s r.linkers) ∧
       (r'.fortranCompilers.Perm r.fortranCompilers ∧
        r'.cCompilers.Perm r.cCompilers ∧
        r'.linkers.Perm r.linkers) ∧
       set_default_compiler_suite r' s = .ok r' ∧
       (∀ t rest, r'.fortranCompilers = t :: rest → t.suite = s) ∧
       (∀ t rest, r'.cCompilers = t :: rest → t.suite = s) ∧
       (∀ t rest, r'.linkers = t :: rest → t.suite = s)) ∧
    (∀ (r : SuiteRepo) (s : String),
       ((r.fortranCompilers ≠ [] ∧ ∀ t ∈ r.fortranCompilers, t.suite ≠ s) ∨
        (r.cCompilers ≠ [] ∧ ∀ t ∈ r.cCompilers, t.suite ≠ s) ∨
        (r.linkers ≠ [] ∧ ∀ t ∈ r.linkers, t.suite ≠ s)) →
       ∃ e, set_default_compiler_suite r s = .error e) := by
  constructor
  · intro r r' s h
    obtain ⟨h1, h2, h3⟩ := set_default_ok_parts r r' s h
    have e1 := setSuiteCat_ok_eq _ _ _ _ h1
    have e2 := setSuiteCat_ok_eq _ _ _ _ h2
    have e3 := setSuiteCat_ok_eq _ _ _ _ h3
    refine ⟨⟨e1, e2, e3⟩, ⟨?_, ?_, ?_⟩, ?_, ?_, ?_, ?_⟩
    · rw [e1]; exact List.filter_append_perm _ _
    · rw [e2]; exact List.filter_append_perm _ _
    · rw [e3]; exact List.filter_append_perm _ _
    · have i1 := setSuiteCat_idem _ _ _ _ h1
      have i2 := setSuiteCat_idem _ _ _ _ h2
      have i3 := setSuiteCat_idem _ _ _ _ h3
      unfold set_default_compiler_suite
      rw [i1, i2, i3]
      rfl
    · exact fun t rest hcons => setSuiteCat_ok_head _ _ _ _ _ (hcons ▸ h1)
    · exact fun t rest hcons => setSuiteCat_ok_head _ _ _ _ _ (hcons ▸ h2)
    · exact fun t rest hcons => setSuiteCat_ok_head _ _ _ _ _ (hcons ▸ h3)
  · intro r s h
    rcases h with ⟨hne, hall⟩ | ⟨hne, hall⟩ | ⟨hne, hall⟩
    · obtain ⟨e, he⟩ := setSuiteCat_error_of "FORTRAN_COMPILER" s _ hne hall
      exact ⟨e, by unfold set_default_compiler_suite;
                   rw [he]; simp [Bind.bind, Except.bind]⟩
    · obtain ⟨e, he⟩ := setSuiteCat_error_of "C_COMPILER" s _ hne hall
      cases h1 : setSuiteCat "FORTRAN_COMPILER" s r.fortranCompilers with
      | error e2 =>
          exact ⟨e2, by unfold set_default_compiler_suite;
                        rw [h1]; simp [Bind.bind, Except.bind]⟩
      | ok fc =>
          exact ⟨e, by unfold set_default_compiler_suite;
                       rw [h1, he]; simp [Bind.bind, Except.bind]⟩
    · obtain ⟨e, he⟩ := setSuiteCat_error_of "LINKER" s _ hne hall
      cases h1 : setSuiteCat "FORTRAN_COMPILER" s r.fortranCompilers with
      | error e2 =>
          exact ⟨e2, by unfold set_default_compiler_suite;
                        rw [h1]; simp [Bind.bind, Except.bind]⟩
      | ok fc =>
          cases h2 : setSuiteCat "C_COMPILER" s r.cCompilers with
          | error e3 =>
              exact ⟨e3, by unfold set_default_compiler_suite;
                            rw [h1, h2]; simp [Bind.bind, Except.bind]⟩
          | ok cc =>
              exact ⟨e, by unfold set_default_compiler_suite;
                           rw [h1, h2, he]; simp [Bind.bind, Except.bind]⟩

/-- Claim C8, witness: reordering `sampleSuiteRepo` to suite intel
succeeds, a second call is a fixpoint, and a repository whose only
(non-empty) Fortran category has no intel tool makes the call raise. -/
theorem c8_witness :
    set_default_compiler_suite sampleSuiteRepo "intel" =
      .ok sampleSuiteRepoIntelFirst ∧
    set_default_compiler_suite sampleSuiteRepoIntelFirst "intel" =
      .ok sampleSuiteRepoIntelFirst ∧
    (∃ e, set_default_compiler_suite gnuOnlyFortranRepo "intel" =
       .error e) :=
  ⟨by decide,
   (c8_suite_reorder.1 sampleSuiteRepo sampleSuiteRepoIntelFirst "intel"
      (by decide)).2.2.1,
   c8_suite_reorder.2 gnuOnlyFortranRepo "intel"
     (Or.inl ⟨by decide, by decide⟩)⟩

/-- Claim C8, counterexample to the claim as stated: a repository whose
C-compiler category is empty (hence contains no tool of suite gnu)
makes `set_default_compiler_suite(.. "gnu")` succeed rather than raise,
because the source only raises for a non-empty list with a wrong head. -/
theorem c8_counterexample :
    set_default_compiler_suite gnuOnlyFortranRepo "gnu" =
      .ok gnuOnlyFortranRepo ∧
    gnuOnlyFortranRepo.cCompilers = [] ∧
    (∀ t ∈ gnuOnlyFortranRepo.cCompilers, t.suite ≠ "gnu") := by
  refine ⟨by decide, rfl, ?_⟩
  intro t ht
  simp [gnuOnlyFortranRepo] at ht

/-- Claim C9.  When artefact reuse is enabled and the computed
destination of an item already exists, `process_artefact` returns the
existing destination as a success and the external preprocessor is not
invoked. -/
theorem c9_reuse_fast_path (cfg : PPItemConfig) (outputOf : String → String)
    (runOutcome : Except String Unit) (fpath : String)
    (h1 : cfg.reuseArtefacts = true)
    (h2 : outputOf fpath ∈ cfg.existingPaths) :
    process_artefact cfg outputOf runOutcome fpath =
      (.ok (outputOf fpath), false) := by
  have hc : cfg.existingPaths.contains (outputOf fpath) = true := by
    simpa using h2
  simp [process_artefact, h1, hc, h2]

/-- Claim C9, witness: an existing destination with reuse enabled is
returned as a success with no tool run, even though the tool outcome
would have been an error. -/
theorem c9_witness :
    ({ reuseArtefacts := true, existingPaths := ["build/a.f90"] } :
       PPItemConfig).reuseArtefacts = true ∧
    process_artefact
      { reuseArtefacts := true, existingPaths := ["build/a.f90"] }
      (fun _ => "build/a.f90") (.error "tool must not run") "src/a.F90" =
      (.ok "build/a.f90", false) :=
  ⟨rfl,
   c9_reuse_fast_path
     { reuseArtefacts := true, existingPaths := ["build/a.f90"] }
     (fun _ => "build/a.f90") (.error "tool must not run") "src/a.F90"
     rfl (by decide)⟩

/-- Claim C10.  `Psyclone.process` validates before spawning: it raises
when the tool is unavailable; with a truthy api after the legacy
any-case `nemo` normalisation, it raises when psy_file is missing, when
alg_file is missing, or when transformed_file is supplied; with no api it
raises when psy_file is supplied, when alg_file is supplied, or when
transformed_file is missing; and `nemo` in any letter case normalises to
the falsy empty api. -/
theorem c10_psyclone_validation (api psy alg tr : Option String) :
    (∃ e, psycloneProcessValidate false api psy alg tr = .error e) ∧
    (pyTruthy (normalizeApi api) = true →
       (psy = none ∨ pyTruthy alg = false ∨ tr ≠ none) →
       ∃ e, psycloneProcessValidate true api psy alg tr = .error e) ∧
    (pyTruthy (normalizeApi api) = false →
       (psy ≠ none ∨ pyTruthy alg = true ∨ tr = none) →
       ∃ e, psycloneProcessValidate true api psy alg tr = .error e) ∧
    (pyTruthy api = true → pyLower (api.getD "") = "nemo" →
       normalizeApi api = some "" ∧ pyTruthy (normalizeApi api) = false) := by
  refine ⟨⟨"PSyclone is not available.", by simp [psycloneProcessValidate]⟩,
          ?_, ?_, ?_⟩
  · intro h hcase
    rcases except_unit_cases (psycloneProcessValidate true api psy alg tr)
      with hok | he
    · exfalso
      obtain ⟨h1, h2, h3⟩ := validate_ok_api true api psy alg tr h hok
      rcases hcase with c | c | c
      · exact h1 c
      · rw [h2] at c; cases c
      · exact c h3
    · exact he
  · intro h hcase
    rcases except_unit_cases (psycloneProcessValidate true api psy alg tr)
      with hok | he
    · exfalso
      obtain ⟨h1, h2, h3⟩ := validate_ok_noapi true api psy alg tr h hok
      rcases hcase with c | c | c
      · exact c h1
      · rw [h2] at c; cases c
      · exact h3 c
    · exact he
  · intro h1 h2
    have heq : normalizeApi api = some "" := by simp [normalizeApi, h1, h2]
    exact ⟨heq, by rw [heq]; rfl⟩

/-- Claim C10, witness: the unavailable case, a missing psy_file with api
`lfric`, a missing transformed_file with api `NeMo` (normalised away),
and the normalisation itself, each at concrete arguments. -/
theorem c10_witness :
    (∃ e, psycloneProcessValidate false none none none (some "t.f90") =
       .error e) ∧
    pyTruthy (normalizeApi (some "lfric")) = true ∧
    (∃ e, psycloneProcessValidate true (some "lfric") none (some "a.alg")
       none = .error e) ∧
    pyTruthy (normalizeApi (some "NeMo")) = false ∧
    (∃ e, psycloneProcessValidate true (some "NeMo") none none none =
       .error e) ∧
    normalizeApi (some "NeMo") = some "" :=
  ⟨(c10_psyclone_validation none none none (some "t.f90")).1,
   by decide,
   (c10_psyclone_validation (some "lfric") none (some "a.alg") none).2.1
     (by decide) (Or.inl rfl),
   by decide,
   (c10_psyclone_validation (some "NeMo") none none none).2.2.1
     (by decide) (Or.inr (Or.inr rfl)),
   ((c10_psyclone_validation (some "NeMo") none none none).2.2.2
     (by decide) (by decide)).1⟩

end FabVerify
